import Mathlib

/-!
Verification of the CardioEye ingestion / alerting core.

This file gives a shallow embedding of the ECG-submission pipeline
(`POST /api/ecg/submit`), the alert-resolution path
(`PATCH /api/doctor/alerts/:alertId/resolve` backed by
`DatabaseStorage.markAlertAsResolved`), and the WebSocket connection
registry (`wsClients`), translated from the Express route handlers and
the storage layer.  JavaScript-specific semantics are modelled
explicitly: `x || default` falls back when the value is `0`, the empty
string or absent; `String.prototype.replace` with a string pattern
replaces only the first occurrence; template interpolation of an absent
value prints `"undefined"`.
-/

namespace CardioEye

/-- A patient record; only the fields the submit pipeline reads. -/
structure Patient where
  id : String
  userId : String
  deriving DecidableEq, Repr

/-- Per-patient alert settings (`alert_settings` table).  The integer
threshold columns are nullable in the schema, hence `Option Int`. -/
structure AlertSettings where
  patientId : String
  highHeartRateThreshold : Option Int
  lowHeartRateThreshold : Option Int
  enableWhatsAppAlerts : Bool
  enableSmsAlerts : Bool
  deriving DecidableEq, Repr

/-- A persisted ECG reading (`ecg_readings` table), the fields the
pipeline writes. -/
structure EcgReading where
  id : String
  patientId : String
  heartRate : Int
  rhythm : String
  ecgData : String
  isNormal : Bool
  alertTriggered : Bool
  deriving DecidableEq, Repr

/-- A persisted health alert (`health_alerts` table). -/
structure HealthAlert where
  id : String
  patientId : String
  ecgReadingId : Option String
  alertType : String
  severity : String
  message : String
  isResolved : Bool
  resolvedBy : Option String
  resolvedAt : Option Nat
  deriving DecidableEq, Repr

/-- The body of a `POST /api/ecg/submit` request.  `rhythm` and
`deviceId` may be absent in the JSON body. -/
structure SubmitRequest where
  patientId : String
  heartRate : Int
  rhythm : Option String
  ecgData : String
  deviceId : Option String
  deriving DecidableEq, Repr

/-- JavaScript falsy fallback `x || d` for an optional integer: absent,
null and `0` all fall back to the default. -/
def jsOrInt (x : Option Int) (d : Int) : Int :=
  match x with
  | none => d
  | some t => if t = 0 then d else t

/-- JavaScript falsy fallback `rhythm || 'normal'` for an optional
string: absent and the empty string fall back. -/
def jsOrNormal (rhythm : Option String) : String :=
  match rhythm with
  | none => "normal"
  | some s => if s = "" then "normal" else s

/-- JavaScript template interpolation of a possibly-absent string:
an absent value prints as `"undefined"`. -/
def jsInterp (rhythm : Option String) : String :=
  match rhythm with
  | none => "undefined"
  | some s => s

/-- The effective high threshold read by the handler:
`alertSettings?.highHeartRateThreshold || 120`. -/
def effectiveHigh (settings : Option AlertSettings) : Int :=
  match settings with
  | none => 120
  | some s => jsOrInt s.highHeartRateThreshold 120

/-- The effective low threshold read by the handler:
`alertSettings?.lowHeartRateThreshold || 50`. -/
def effectiveLow (settings : Option AlertSettings) : Int :=
  match settings with
  | none => 50
  | some s => jsOrInt s.lowHeartRateThreshold 50

/-- The fixed-band normalcy check of the handler:
`heartRate >= 50 && heartRate <= 120 && rhythm === 'normal'`.
An absent rhythm fails the strict-equality comparison. -/
def classify (heartRate : Int) (rhythm : Option String) : Bool :=
  decide (50 ≤ heartRate ∧ heartRate ≤ 120 ∧ rhythm = some "normal")

/-- The nested conditionals of the handler choosing alert type and
severity for an abnormal reading. -/
def alertTypeSeverity (heartRate : Int) (rhythm : Option String)
    (settings : Option AlertSettings) : String × String :=
  if heartRate > effectiveHigh settings then
    ("high_heart_rate", if heartRate > 140 then "critical" else "high")
  else if heartRate < effectiveLow settings then
    ("low_heart_rate", if heartRate < 40 then "critical" else "high")
  else if rhythm ≠ some "normal" then
    ("irregular_rhythm", "high")
  else
    ("abnormal_reading", "medium")

/-- `String.prototype.replace('_', ' ')` replaces only the FIRST
occurrence of the underscore. -/
def replaceFirstUnderscoreAux : List Char → List Char
  | [] => []
  | c :: cs => if c = '_' then ' ' :: cs else c :: replaceFirstUnderscoreAux cs

/-- JavaScript `alertType.replace('_', ' ')`. -/
def replaceFirstUnderscore (s : String) : String :=
  String.mk (replaceFirstUnderscoreAux s.data)

/-- JavaScript `toUpperCase()` on the ASCII strings in play. -/
def jsToUpperCase (s : String) : String :=
  String.mk (s.data.map Char.toUpper)

/-- The alert message built by the handler:
`` `${alertType.replace('_', ' ').toUpperCase()}: Heart rate ${heartRate} BPM, Rhythm: ${rhythm}` ``.
Note the interpolated rhythm is the raw request value, not the stored
reading's rhythm. -/
def mkAlertMessage (alertType : String) (heartRate : Int)
    (rhythm : Option String) : String :=
  jsToUpperCase (replaceFirstUnderscore alertType) ++ ": Heart rate " ++
    toString heartRate ++ " BPM, Rhythm: " ++ jsInterp rhythm

/-- Server-side state touched by the submit pipeline: the patients and
settings tables it reads, the readings and alerts tables it writes, and
observation lists recording gateway (Twilio) invocations and WebSocket
broadcast attempts.  `nextId` models the store's identity generator. -/
structure SubmitState where
  patients : List Patient
  settings : List AlertSettings
  readings : List EcgReading
  alerts : List HealthAlert
  gatewayCalls : List String
  broadcasts : List String
  nextId : Nat
  deriving DecidableEq, Repr

/-- `storage.getAlertSettingsByPatientId(patientId)`. -/
def settingsFor (st : SubmitState) (pid : String) : Option AlertSettings :=
  st.settings.find? (fun s => s.patientId = pid)

/-- The notification guard of the handler:
`alertSettings?.enableWhatsAppAlerts || alertSettings?.enableSmsAlerts`. -/
def notifyOn : Option AlertSettings → Bool
  | none => false
  | some s => s.enableWhatsAppAlerts || s.enableSmsAlerts

/-- The ECG reading persisted by the handler via
`storage.createEcgReading`. -/
def mkReading (st : SubmitState) (req : SubmitRequest) : EcgReading :=
  { id := toString st.nextId
    patientId := req.patientId
    heartRate := req.heartRate
    rhythm := jsOrNormal req.rhythm
    ecgData := req.ecgData
    isNormal := classify req.heartRate req.rhythm
    alertTriggered := !(classify req.heartRate req.rhythm) }

/-- The health alert persisted by the handler via
`storage.createHealthAlert`. -/
def mkAlert (id : String) (pid : String) (readingId : String)
    (heartRate : Int) (rhythm : Option String)
    (settings : Option AlertSettings) : HealthAlert :=
  { id := id
    patientId := pid
    ecgReadingId := some readingId
    alertType := (alertTypeSeverity heartRate rhythm settings).1
    severity := (alertTypeSeverity heartRate rhythm settings).2
    message := mkAlertMessage (alertTypeSeverity heartRate rhythm settings).1
      heartRate rhythm
    isResolved := false
    resolvedBy := none
    resolvedAt := none }

/-- Responses of the submit endpoint: 404 when the patient record is
absent, otherwise 200 with the persisted reading. -/
inductive SubmitResponse where
  | notFound
  | success (reading : EcgReading)
  deriving DecidableEq, Repr

/-- The `POST /api/ecg/submit` handler: validate the patient, persist
the reading, and when the fixed band flags it abnormal, create a health
alert, invoke the notification gateway when a channel toggle is on, and
broadcast to WebSocket clients. -/
def submitEcg (st : SubmitState) (req : SubmitRequest) :
    SubmitResponse × SubmitState :=
  match st.patients.find? (fun p => p.id = req.patientId) with
  | none => (SubmitResponse.notFound, st)
  | some _pat =>
    if classify req.heartRate req.rhythm then
      (SubmitResponse.success (mkReading st req),
       { st with
           readings := st.readings ++ [mkReading st req]
           nextId := st.nextId + 1 })
    else
      (SubmitResponse.success (mkReading st req),
       { st with
           readings := st.readings ++ [mkReading st req]
           alerts := st.alerts ++
             [mkAlert (toString (st.nextId + 1)) req.patientId
               (toString st.nextId) req.heartRate req.rhythm
               (settingsFor st req.patientId)]
           gatewayCalls :=
             if notifyOn (settingsFor st req.patientId) then
               st.gatewayCalls ++ [toString (st.nextId + 1)]
             else st.gatewayCalls
           broadcasts := st.broadcasts ++ [toString (st.nextId + 1)]
           nextId := st.nextId + 2 })

/-- `DatabaseStorage.markAlertAsResolved`: an UPDATE ... WHERE id =
alertId.  Rows with a matching id get `isResolved = true`, the resolver
and a fresh timestamp; all other rows are untouched.  A non-matching id
updates zero rows and raises no error. -/
def markAlertAsResolved (alerts : List HealthAlert) (alertId : String)
    (resolvedBy : String) (now : Nat) : List HealthAlert :=
  alerts.map (fun a =>
    if a.id = alertId then
      { a with isResolved := true, resolvedBy := some resolvedBy,
               resolvedAt := some now }
    else a)

/-- Responses of the resolve endpoint: 403 for a non-doctor caller,
otherwise `{ success: true }`.  The handler has no not-found branch. -/
inductive ResolveResponse where
  | forbidden
  | success
  deriving DecidableEq, Repr

/-- The `PATCH /api/doctor/alerts/:alertId/resolve` handler: check the
doctor role, run the UPDATE, and acknowledge success unconditionally. -/
def resolveAlertRoute (role : String) (alerts : List HealthAlert)
    (alertId : String) (userId : String) (now : Nat) :
    ResolveResponse × List HealthAlert :=
  if role ≠ "doctor" then (ResolveResponse.forbidden, alerts)
  else (ResolveResponse.success, markAlertAsResolved alerts alertId userId now)

/-- JavaScript `Map.set`: replace in place when the key is present,
append otherwise.  Channel handles are modelled as numbers. -/
def mapSet (m : List (String × Nat)) (k : String) (v : Nat) :
    List (String × Nat) :=
  match m with
  | [] => [(k, v)]
  | (k1, v1) :: rest =>
    if k1 = k then (k, v) :: rest else (k1, v1) :: mapSet rest k v

/-- JavaScript `Map.delete`. -/
def mapDelete (m : List (String × Nat)) (k : String) :
    List (String × Nat) :=
  m.filter (fun kv => kv.1 ≠ k)

/-- JavaScript `Map.get`. -/
def mapGet (m : List (String × Nat)) (k : String) : Option Nat :=
  (m.find? (fun kv => kv.1 = k)).map (fun kv => kv.2)

/-- The `wss.on('connection')` handler over the `wsClients` map: a
connection carrying a userId registers its channel (replacing any
previous one); without a userId nothing is registered. -/
def wsOnConnect (m : List (String × Nat)) (userId : Option String)
    (ws : Nat) : List (String × Nat) :=
  match userId with
  | none => m
  | some uid => mapSet m uid ws

/-- The `ws.on('close')` / `ws.on('error')` handlers: they run
`wsClients.delete(userId)` unconditionally; the closing channel handle
is not compared with the registered one. -/
def wsOnClose (m : List (String × Nat)) (userId : String) (_ws : Nat) :
    List (String × Nat) :=
  mapDelete m userId

/-- Decision policy as the specification words it, over the effective
thresholds: first match wins among high rate, low rate, irregular
rhythm, with `abnormal_reading`/`medium` as the fallback. -/
def specAlertPolicy (heartRate : Int) (rhythm : Option String)
    (highT lowT : Int) : String × String :=
  if heartRate > highT then
    ("high_heart_rate", if heartRate > 140 then "critical" else "high")
  else if heartRate < lowT then
    ("low_heart_rate", if heartRate < 40 then "critical" else "high")
  else if rhythm ≠ some "normal" then
    ("irregular_rhythm", "high")
  else
    ("abnormal_reading", "medium")

/-- Replacement of EVERY underscore by a space, as the specification
words the message format. -/
def replaceAllUnderscores (s : String) : String :=
  String.mk (s.data.map (fun c => if c = '_' then ' ' else c))

/-- Message format as the specification words it: the alert type with
EVERY underscore replaced by a space, uppercased. -/
def specMessageEveryUnderscore (alertType : String) (heartRate : Int)
    (rhythm : Option String) : String :=
  jsToUpperCase (replaceAllUnderscores alertType) ++ ": Heart rate " ++
    toString heartRate ++ " BPM, Rhythm: " ++ jsInterp rhythm

/-- A concrete patient used to instantiate the theorems. -/
def demoPatient : Patient := { id := "p1", userId := "u1" }

/-- A concrete server state with one patient and no stored settings. -/
def demoState : SubmitState :=
  { patients := [demoPatient], settings := [], readings := [], alerts := []
    gatewayCalls := [], broadcasts := [], nextId := 0 }

/-- A concrete submission request builder. -/
def demoReq (hr : Int) (rhythm : Option String) : SubmitRequest :=
  { patientId := "p1", heartRate := hr, rhythm := rhythm
    ecgData := "[]", deviceId := none }

/-- A concrete unresolved alert used to instantiate the theorems. -/
def demoAlert : HealthAlert :=
  { id := "a1", patientId := "p1", ecgReadingId := none
    alertType := "high_heart_rate", severity := "high", message := "m"
    isResolved := false, resolvedBy := none, resolvedAt := none }

/-- A concrete settings record storing both thresholds as 0. -/
def demoZeroSettings : AlertSettings :=
  { patientId := "p1", highHeartRateThreshold := some 0
    lowHeartRateThreshold := some 0, enableWhatsAppAlerts := false
    enableSmsAlerts := false }

/-- A concrete server state with no patient records. -/
def emptyState : SubmitState :=
  { patients := [], settings := [], readings := [], alerts := []
    gatewayCalls := [], broadcasts := [], nextId := 0 }

/-! ### Helper lemmas about the pipeline -/

lemma alertTypeSeverity_eq_spec (heartRate : Int) (rhythm : Option String)
    (settings : Option AlertSettings) :
    alertTypeSeverity heartRate rhythm settings =
      specAlertPolicy heartRate rhythm (effectiveHigh settings)
        (effectiveLow settings) := rfl

lemma submit_normal_eq (st : SubmitState) (req : SubmitRequest)
    (pat : Patient)
    (hp : st.patients.find? (fun p => p.id = req.patientId) = some pat)
    (hn : classify req.heartRate req.rhythm = true) :
    submitEcg st req =
      (SubmitResponse.success (mkReading st req),
       { st with
           readings := st.readings ++ [mkReading st req]
           nextId := st.nextId + 1 }) := by
  unfold submitEcg
  rw [hp]
  simp [hn]

lemma submit_abnormal_eq (st : SubmitState) (req : SubmitRequest)
    (pat : Patient)
    (hp : st.patients.find? (fun p => p.id = req.patientId) = some pat)
    (hab : classify req.heartRate req.rhythm = false) :
    submitEcg st req =
      (SubmitResponse.success (mkReading st req),
       { st with
           readings := st.readings ++ [mkReading st req]
           alerts := st.alerts ++
             [mkAlert (toString (st.nextId + 1)) req.patientId
               (toString st.nextId) req.heartRate req.rhythm
               (settingsFor st req.patientId)]
           gatewayCalls :=
             if notifyOn (settingsFor st req.patientId) then
               st.gatewayCalls ++ [toString (st.nextId + 1)]
             else st.gatewayCalls
           broadcasts := st.broadcasts ++ [toString (st.nextId + 1)]
           nextId := st.nextId + 2 }) := by
  unfold submitEcg
  rw [hp]
  simp [hab]

/-! ### Claim theorems -/

/-- Claim C1: for every submission the fixed band already flagged
abnormal, the created alert's type and severity follow the
first-match-wins policy over the effective (defaulted) thresholds:
high rate (critical above 140, high otherwise), then low rate
(critical below 40, high otherwise), then irregular rhythm (high),
then abnormal reading (medium). -/
theorem submit_follows_alert_policy (st : SubmitState) (req : SubmitRequest)
    (pat : Patient)
    (hp : st.patients.find? (fun p => p.id = req.patientId) = some pat)
    (hab : classify req.heartRate req.rhythm = false) :
    ∃ alert, (submitEcg st req).2.alerts = st.alerts ++ [alert] ∧
      (alert.alertType, alert.severity) =
        specAlertPolicy req.heartRate req.rhythm
          (effectiveHigh (settingsFor st req.patientId))
          (effectiveLow (settingsFor st req.patientId)) := by
  refine ⟨mkAlert (toString (st.nextId + 1)) req.patientId
    (toString st.nextId) req.heartRate req.rhythm
    (settingsFor st req.patientId), ?_, ?_⟩
  · rw [submit_abnormal_eq st req pat hp hab]
  · rw [mkAlert, ← alertTypeSeverity_eq_spec]

/-- Witness for C1 at heartRate 150, rhythm "normal", no stored
settings. -/
theorem submit_follows_alert_policy_witness :
    (demoState.patients.find?
      (fun p => p.id = (demoReq 150 (some "normal")).patientId) =
        some demoPatient) ∧
    (classify (demoReq 150 (some "normal")).heartRate
      (demoReq 150 (some "normal")).rhythm = false) ∧
    (∃ alert,
      (submitEcg demoState (demoReq 150 (some "normal"))).2.alerts =
        demoState.alerts ++ [alert] ∧
      (alert.alertType, alert.severity) =
        specAlertPolicy (demoReq 150 (some "normal")).heartRate
          (demoReq 150 (some "normal")).rhythm
          (effectiveHigh (settingsFor demoState
            (demoReq 150 (some "normal")).patientId))
          (effectiveLow (settingsFor demoState
            (demoReq 150 (some "normal")).patientId))) :=
  ⟨by decide, by decide,
    submit_follows_alert_policy demoState (demoReq 150 (some "normal"))
      demoPatient (by decide) (by decide)⟩

/-- Claim C2: for every submission whose patient exists, the persisted
reading has `isNormal` true exactly when the heart rate lies in
[50, 120] and the rhythm equals "normal", `alertTriggered` is the
negation of `isNormal`, and no health alert is created for a normal
reading. -/
theorem submit_normalcy_contract (st : SubmitState) (req : SubmitRequest)
    (pat : Patient)
    (hp : st.patients.find? (fun p => p.id = req.patientId) = some pat) :
    ∃ reading,
      (submitEcg st req).2.readings = st.readings ++ [reading] ∧
      (reading.isNormal = true ↔
        (50 ≤ req.heartRate ∧ req.heartRate ≤ 120 ∧
          req.rhythm = some "normal")) ∧
      reading.alertTriggered = !reading.isNormal ∧
      (reading.isNormal = true → (submitEcg st req).2.alerts = st.alerts) ∧
      (submitEcg st req).1 = SubmitResponse.success reading := by
  refine ⟨mkReading st req, ?_, ?_, ?_, ?_, ?_⟩
  · cases hn : classify req.heartRate req.rhythm with
    | true => rw [submit_normal_eq st req pat hp hn]
    | false => rw [submit_abnormal_eq st req pat hp hn]
  · simp [mkReading, classify]
  · rfl
  · intro hnorm
    have hn : classify req.heartRate req.rhythm = true := hnorm
    rw [submit_normal_eq st req pat hp hn]
  · cases hn : classify req.heartRate req.rhythm with
    | true => rw [submit_normal_eq st req pat hp hn]
    | false => rw [submit_abnormal_eq st req pat hp hn]

/-- Witness for C2 at heartRate 80, rhythm "normal". -/
theorem submit_normalcy_contract_witness :
    (demoState.patients.find?
      (fun p => p.id = (demoReq 80 (some "normal")).patientId) =
        some demoPatient) ∧
    (∃ reading,
      (submitEcg demoState (demoReq 80 (some "normal"))).2.readings =
        demoState.readings ++ [reading] ∧
      (reading.isNormal = true ↔
        (50 ≤ (demoReq 80 (some "normal")).heartRate ∧
          (demoReq 80 (some "normal")).heartRate ≤ 120 ∧
          (demoReq 80 (some "normal")).rhythm = some "normal")) ∧
      reading.alertTriggered = !reading.isNormal ∧
      (reading.isNormal = true →
        (submitEcg demoState (demoReq 80 (some "normal"))).2.alerts =
          demoState.alerts) ∧
      (submitEcg demoState (demoReq 80 (some "normal"))).1 =
        SubmitResponse.success reading) :=
  ⟨by decide,
    submit_normalcy_contract demoState (demoReq 80 (some "normal"))
      demoPatient (by decide)⟩

/-- Claim C8: a submission whose patient identifier resolves to no
patient record gets the not-found response and leaves the entire server
state unchanged: no reading, no alert, no gateway call, no broadcast. -/
theorem submit_unknown_patient_no_side_effects (st : SubmitState)
    (req : SubmitRequest)
    (hp : st.patients.find? (fun p => p.id = req.patientId) = none) :
    submitEcg st req = (SubmitResponse.notFound, st) := by
  unfold submitEcg
  rw [hp]

/-- Witness for C8 on a state with no patients. -/
theorem submit_unknown_patient_no_side_effects_witness :
    (emptyState.patients.find?
      (fun p => p.id = (demoReq 80 (some "normal")).patientId) = none) ∧
    submitEcg emptyState (demoReq 80 (some "normal")) =
      (SubmitResponse.notFound, emptyState) :=
  ⟨by decide,
    submit_unknown_patient_no_side_effects emptyState
      (demoReq 80 (some "normal")) (by decide)⟩

/-- Counterexample to C3: with default settings and rhythm "normal", a
submission with heartRate 150 produces severity "critical", not the
claimed "high", because 150 > 140. -/
theorem heartRate150_severity_critical_not_high :
    ((submitEcg demoState (demoReq 150 (some "normal"))).2.alerts.map
      (fun a => (a.alertType, a.severity)) =
        [("high_heart_rate", "critical")]) ∧
    ¬ ((submitEcg demoState (demoReq 150 (some "normal"))).2.alerts.map
      (fun a => (a.alertType, a.severity)) =
        [("high_heart_rate", "high")]) :=
  ⟨by decide, by decide⟩

/-- Claim C3 amended: with default settings and rhythm "normal", both a
heartRate of 150 and a heartRate of 145 are classified as
high_heart_rate with severity critical (both exceed the 140
boundary). -/
theorem heartRate150_and_145_both_critical :
    ((submitEcg demoState (demoReq 150 (some "normal"))).2.alerts.map
      (fun a => (a.alertType, a.severity)) =
        [("high_heart_rate", "critical")]) ∧
    ((submitEcg demoState (demoReq 145 (some "normal"))).2.alerts.map
      (fun a => (a.alertType, a.severity)) =
        [("high_heart_rate", "critical")]) :=
  ⟨by decide, by decide⟩

/-- Counterexample to C4: the created alert's message keeps the second
underscore of the alert type — "HIGH HEART_RATE", not the claimed
"HIGH HEART RATE" — because the replacement only touches the first
underscore. -/
theorem alert_message_keeps_second_underscore :
    ((submitEcg demoState (demoReq 150 (some "normal"))).2.alerts.map
      (fun a => a.message) =
        ["HIGH HEART_RATE: Heart rate 150 BPM, Rhythm: normal"]) ∧
    ¬ ((submitEcg demoState (demoReq 150 (some "normal"))).2.alerts.map
      (fun a => a.message) =
        [specMessageEveryUnderscore "high_heart_rate" 150 (some "normal")]) :=
  ⟨by decide, by decide⟩

/-- Claim C4 amended: for every created alert, the message equals the
alert type with only its FIRST underscore replaced by a space and
uppercased, followed by ": Heart rate {heartRate} BPM, Rhythm:
{rhythm}", where the interpolated rhythm is the raw request value. -/
theorem submit_alert_message_first_underscore (st : SubmitState)
    (req : SubmitRequest) (pat : Patient)
    (hp : st.patients.find? (fun p => p.id = req.patientId) = some pat)
    (hab : classify req.heartRate req.rhythm = false) :
    ∃ alert, (submitEcg st req).2.alerts = st.alerts ++ [alert] ∧
      alert.message =
        jsToUpperCase (replaceFirstUnderscore alert.alertType) ++
          ": Heart rate " ++ toString req.heartRate ++
          " BPM, Rhythm: " ++ jsInterp req.rhythm := by
  refine ⟨mkAlert (toString (st.nextId + 1)) req.patientId
    (toString st.nextId) req.heartRate req.rhythm
    (settingsFor st req.patientId), ?_, rfl⟩
  rw [submit_abnormal_eq st req pat hp hab]

/-- Witness for the amended C4 at heartRate 150, rhythm "normal". -/
theorem submit_alert_message_first_underscore_witness :
    (demoState.patients.find?
      (fun p => p.id = (demoReq 150 (some "normal")).patientId) =
        some demoPatient) ∧
    (classify (demoReq 150 (some "normal")).heartRate
      (demoReq 150 (some "normal")).rhythm = false) ∧
    (∃ alert,
      (submitEcg demoState (demoReq 150 (some "normal"))).2.alerts =
        demoState.alerts ++ [alert] ∧
      alert.message =
        jsToUpperCase (replaceFirstUnderscore alert.alertType) ++
          ": Heart rate " ++ toString (demoReq 150 (some "normal")).heartRate ++
          " BPM, Rhythm: " ++ jsInterp (demoReq 150 (some "normal")).rhythm) :=
  ⟨by decide, by decide,
    submit_alert_message_first_underscore demoState
      (demoReq 150 (some "normal")) demoPatient (by decide) (by decide)⟩

/-- Counterexample to C9: a submission with an absent rhythm and
heartRate 80 stores rhythm "normal" yet is classified abnormal
(isNormal false, alertTriggered true, an irregular_rhythm alert is
created), while the identical submission with rhythm explicitly
"normal" is classified normal with no alert. -/
theorem absent_rhythm_classified_abnormal :
    ((submitEcg demoState (demoReq 80 none)).2.readings.map
      (fun r => (r.rhythm, r.isNormal, r.alertTriggered)) =
        [("normal", false, true)]) ∧
    ((submitEcg demoState (demoReq 80 none)).2.alerts.map
      (fun a => (a.alertType, a.severity)) =
        [("irregular_rhythm", "high")]) ∧
    ((submitEcg demoState (demoReq 80 (some "normal"))).2.readings.map
      (fun r => (r.rhythm, r.isNormal, r.alertTriggered)) =
        [("normal", true, false)]) ∧
    ((submitEcg demoState (demoReq 80 (some "normal"))).2.alerts = []) :=
  ⟨by decide, by decide, by decide, by decide⟩

/-- Claim C9 amended: a submission with an absent rhythm stores rhythm
"normal" in the persisted reading, but the classification uses the raw
absent value: isNormal is false and alertTriggered is true for every
heart rate, an alert is always created, and when the heart rate
violates neither effective threshold the alert is irregular_rhythm
with severity high. -/
theorem submit_absent_rhythm_behavior (st : SubmitState)
    (req : SubmitRequest) (pat : Patient)
    (hp : st.patients.find? (fun p => p.id = req.patientId) = some pat)
    (hr0 : req.rhythm = none) :
    ∃ reading alert,
      (submitEcg st req).2.readings = st.readings ++ [reading] ∧
      reading.rhythm = "normal" ∧
      reading.isNormal = false ∧
      reading.alertTriggered = true ∧
      (submitEcg st req).2.alerts = st.alerts ++ [alert] ∧
      (¬ req.heartRate > effectiveHigh (settingsFor st req.patientId) →
        ¬ req.heartRate < effectiveLow (settingsFor st req.patientId) →
        (alert.alertType, alert.severity) = ("irregular_rhythm", "high")) := by
  have hab : classify req.heartRate req.rhythm = false := by
    simp [classify, hr0]
  refine ⟨mkReading st req,
    mkAlert (toString (st.nextId + 1)) req.patientId (toString st.nextId)
      req.heartRate req.rhythm (settingsFor st req.patientId),
    ?_, ?_, ?_, ?_, ?_, ?_⟩
  · rw [submit_abnormal_eq st req pat hp hab]
  · simp [mkReading, jsOrNormal, hr0]
  · simp [mkReading, hab]
  · simp [mkReading, hab]
  · rw [submit_abnormal_eq st req pat hp hab]
  · intro hhigh hlow
    simp [mkAlert, alertTypeSeverity, hhigh, hlow, hr0]

/-- Witness for the amended C9 at heartRate 80 with absent rhythm. -/
theorem submit_absent_rhythm_behavior_witness :
    (demoState.patients.find?
      (fun p => p.id = (demoReq 80 none).patientId) = some demoPatient) ∧
    ((demoReq 80 none).rhythm = none) ∧
    (∃ reading alert,
      (submitEcg demoState (demoReq 80 none)).2.readings =
        demoState.readings ++ [reading] ∧
      reading.rhythm = "normal" ∧
      reading.isNormal = false ∧
      reading.alertTriggered = true ∧
      (submitEcg demoState (demoReq 80 none)).2.alerts =
        demoState.alerts ++ [alert] ∧
      (¬ (demoReq 80 none).heartRate >
          effectiveHigh (settingsFor demoState (demoReq 80 none).patientId) →
        ¬ (demoReq 80 none).heartRate <
          effectiveLow (settingsFor demoState (demoReq 80 none).patientId) →
        (alert.alertType, alert.severity) = ("irregular_rhythm", "high"))) :=
  ⟨by decide, rfl,
    submit_absent_rhythm_behavior demoState (demoReq 80 none) demoPatient
      (by decide) rfl⟩

/-! ### Helper lemmas about resolution and the registry -/

lemma markAlertAsResolved_mem (alerts : List HealthAlert)
    (alertId resolvedBy : String) (now : Nat) (a : HealthAlert)
    (ha : a ∈ alerts) (hid : a.id = alertId) :
    { a with isResolved := true, resolvedBy := some resolvedBy,
             resolvedAt := some now } ∈
      markAlertAsResolved alerts alertId resolvedBy now := by
  unfold markAlertAsResolved
  have h := List.mem_map_of_mem (fun b : HealthAlert =>
    if b.id = alertId then
      { b with isResolved := true, resolvedBy := some resolvedBy,
               resolvedAt := some now }
    else b) ha
  simpa [hid] using h

lemma markAlertAsResolved_no_match (alerts : List HealthAlert)
    (alertId resolvedBy : String) (now : Nat)
    (h : ∀ a ∈ alerts, a.id ≠ alertId) :
    markAlertAsResolved alerts alertId resolvedBy now = alerts := by
  unfold markAlertAsResolved
  calc alerts.map (fun a =>
        if a.id = alertId then
          { a with isResolved := true, resolvedBy := some resolvedBy,
                   resolvedAt := some now }
        else a)
      = alerts.map id :=
        List.map_congr_left (fun a ha => by rw [if_neg (h a ha)]; rfl)
    _ = alerts := List.map_id alerts

lemma mapGet_mapDelete (m : List (String × Nat)) (k : String) :
    mapGet (mapDelete m k) k = none := by
  have hfind : (mapDelete m k).find? (fun kv => kv.1 = k) = none := by
    rw [List.find?_eq_none]
    intro kv hkv
    have hmem := List.mem_filter.mp hkv
    simpa using hmem.2
  unfold mapGet
  rw [hfind]
  rfl

/-! ### Claim theorems about resolution and the registry -/

/-- Counterexample to C5: resolving an alert identifier that exists
nowhere in the store (here: an empty store) is acknowledged with
success, not rejected with a not-found error. -/
theorem resolve_unknown_id_returns_success :
    resolveAlertRoute "doctor" [] "a1" "d1" 0 =
      (ResolveResponse.success, []) := by decide

/-- Claim C5 amended: the resolve operation never fails with NotFound —
an unknown alert identifier is a silent no-op and the caller still
receives a success acknowledgment; when the identifier exists the
operation sets isResolved true, the resolver identity and the
resolution timestamp. -/
theorem resolve_success_and_field_updates (alerts : List HealthAlert)
    (alertId userId : String) (now : Nat) :
    (resolveAlertRoute "doctor" alerts alertId userId now).1 =
      ResolveResponse.success ∧
    (∀ a ∈ alerts, a.id = alertId →
      { a with isResolved := true, resolvedBy := some userId,
               resolvedAt := some now } ∈
        (resolveAlertRoute "doctor" alerts alertId userId now).2) ∧
    ((∀ a ∈ alerts, a.id ≠ alertId) →
      (resolveAlertRoute "doctor" alerts alertId userId now).2 = alerts) := by
  have hroute : resolveAlertRoute "doctor" alerts alertId userId now =
      (ResolveResponse.success,
        markAlertAsResolved alerts alertId userId now) := by
    unfold resolveAlertRoute
    simp
  rw [hroute]
  refine ⟨rfl, ?_, ?_⟩
  · intro a ha hid
    exact markAlertAsResolved_mem alerts alertId userId now a ha hid
  · intro h
    exact markAlertAsResolved_no_match alerts alertId userId now h

/-- Witness for the amended C5 on a one-alert store. -/
theorem resolve_success_and_field_updates_witness :
    ((resolveAlertRoute "doctor" [demoAlert] "a1" "d1" 5).1 =
      ResolveResponse.success ∧
    (∀ a ∈ [demoAlert], a.id = "a1" →
      { a with isResolved := true, resolvedBy := some "d1",
               resolvedAt := some 5 } ∈
        (resolveAlertRoute "doctor" [demoAlert] "a1" "d1" 5).2) ∧
    ((∀ a ∈ [demoAlert], a.id ≠ "a1") →
      (resolveAlertRoute "doctor" [demoAlert] "a1" "d1" 5).2 =
        [demoAlert])) :=
  resolve_success_and_field_updates [demoAlert] "a1" "d1" 5

/-- Claim C6: resolving twice equals resolving once with the second
resolver's identity and timestamp (last-write-wins), and after the
second resolution every alert with the resolved identifier is still
resolved — re-resolution never reverts an alert to unresolved. -/
theorem resolve_idempotent_last_write_wins (alerts : List HealthAlert)
    (alertId r1 r2 : String) (t1 t2 : Nat) :
    markAlertAsResolved (markAlertAsResolved alerts alertId r1 t1)
        alertId r2 t2 =
      markAlertAsResolved alerts alertId r2 t2 ∧
    (∀ a ∈ markAlertAsResolved (markAlertAsResolved alerts alertId r1 t1)
        alertId r2 t2, a.id = alertId → a.isResolved = true) := by
  constructor
  · unfold markAlertAsResolved
    rw [List.map_map]
    refine List.map_congr_left (fun a _ => ?_)
    by_cases h : a.id = alertId
    · simp [h]
    · simp [h]
  · intro a ha hid
    unfold markAlertAsResolved at ha
    rw [List.map_map] at ha
    rcases List.mem_map.mp ha with ⟨b, _, hb⟩
    by_cases h : b.id = alertId
    · simp [h] at hb
      rw [← hb]
    · simp [h] at hb
      rw [← hb] at hid
      exact absurd hid h

/-- Witness for C6 on a one-alert store with two distinct resolvers. -/
theorem resolve_idempotent_last_write_wins_witness :
    (markAlertAsResolved (markAlertAsResolved [demoAlert] "a1" "d1" 1)
        "a1" "d2" 2 =
      markAlertAsResolved [demoAlert] "a1" "d2" 2 ∧
    (∀ a ∈ markAlertAsResolved (markAlertAsResolved [demoAlert] "a1" "d1" 1)
        "a1" "d2" 2, a.id = "a1" → a.isResolved = true)) :=
  resolve_idempotent_last_write_wins [demoAlert] "a1" "d1" "d2" 1 2

/-- Counterexample to C7: connect handle 1 for identity "u1", then
handle 2 for the same identity (so the registry maps "u1" to the newer
handle 2); when the OLD handle 1 closes, the handler removes the entry
anyway, wiping out the newer registration instead of leaving it in
place. -/
theorem ws_close_drops_newer_registration :
    (mapGet (wsOnConnect (wsOnConnect [] (some "u1") 1) (some "u1") 2)
      "u1" = some 2) ∧
    (mapGet (wsOnClose (wsOnConnect (wsOnConnect [] (some "u1") 1)
      (some "u1") 2) "u1" 1) "u1" = none) :=
  ⟨by decide, by decide⟩

/-- Claim C7 amended: the close/error handler removes the registry
entry for the connection's identity unconditionally — it never compares
the closing channel handle with the registered one, so after any close
event the identity has no registry entry, even when a newer connection
had re-registered it. -/
theorem ws_close_unconditional_removal (m : List (String × Nat))
    (uid : String) (ws : Nat) :
    wsOnClose m uid ws = mapDelete m uid ∧
    mapGet (wsOnClose m uid ws) uid = none :=
  ⟨rfl, mapGet_mapDelete m uid⟩

/-- Claim C10: the thresholds are read through a JavaScript falsy
fallback, so a stored threshold of 0 (or an absent one) is ignored in
favour of the default — 120 for high, 50 for low — while any non-zero
stored threshold is used as-is; with both thresholds stored as 0 the
decision is identical to having no settings record at all. -/
theorem zero_threshold_falls_back_to_default (hr : Int)
    (rhythm : Option String) (s : AlertSettings) :
    (s.highHeartRateThreshold = some 0 → effectiveHigh (some s) = 120) ∧
    (s.lowHeartRateThreshold = some 0 → effectiveLow (some s) = 50) ∧
    (s.highHeartRateThreshold = none → effectiveHigh (some s) = 120) ∧
    (s.lowHeartRateThreshold = none → effectiveLow (some s) = 50) ∧
    (∀ t : Int, t ≠ 0 → s.highHeartRateThreshold = some t →
      effectiveHigh (some s) = t) ∧
    (∀ t : Int, t ≠ 0 → s.lowHeartRateThreshold = some t →
      effectiveLow (some s) = t) ∧
    (s.highHeartRateThreshold = some 0 → s.lowHeartRateThreshold = some 0 →
      alertTypeSeverity hr rhythm (some s) =
        alertTypeSeverity hr rhythm none) := by
  refine ⟨?_, ?_, ?_, ?_, ?_, ?_, ?_⟩
  · intro h
    simp [effectiveHigh, jsOrInt, h]
  · intro h
    simp [effectiveLow, jsOrInt, h]
  · intro h
    simp [effectiveHigh, jsOrInt, h]
  · intro h
    simp [effectiveLow, jsOrInt, h]
  · intro t ht h
    simp [effectiveHigh, jsOrInt, h, ht]
  · intro t ht h
    simp [effectiveLow, jsOrInt, h, ht]
  · intro hh hl
    rw [alertTypeSeverity_eq_spec, alertTypeSeverity_eq_spec]
    have e1 : effectiveHigh (some s) = effectiveHigh none := by
      simp [effectiveHigh, jsOrInt, hh]
    have e2 : effectiveLow (some s) = effectiveLow none := by
      simp [effectiveLow, jsOrInt, hl]
    rw [e1, e2]

/-- Witness for C10: settings storing both thresholds as 0 behave like
the defaults for a heartRate of 130. -/
theorem zero_threshold_falls_back_to_default_witness :
    (demoZeroSettings.highHeartRateThreshold = some 0 →
      effectiveHigh (some demoZeroSettings) = 120) ∧
    (demoZeroSettings.lowHeartRateThreshold = some 0 →
      effectiveLow (some demoZeroSettings) = 50) ∧
    (demoZeroSettings.highHeartRateThreshold = none →
      effectiveHigh (some demoZeroSettings) = 120) ∧
    (demoZeroSettings.lowHeartRateThreshold = none →
      effectiveLow (some demoZeroSettings) = 50) ∧
    (∀ t : Int, t ≠ 0 → demoZeroSettings.highHeartRateThreshold = some t →
      effectiveHigh (some demoZeroSettings) = t) ∧
    (∀ t : Int, t ≠ 0 → demoZeroSettings.lowHeartRateThreshold = some t →
      effectiveLow (some demoZeroSettings) = t) ∧
    (demoZeroSettings.highHeartRateThreshold = some 0 →
      demoZeroSettings.lowHeartRateThreshold = some 0 →
      alertTypeSeverity 130 (some "normal") (some demoZeroSettings) =
        alertTypeSeverity 130 (some "normal") none) :=
  zero_threshold_falls_back_to_default 130 (some "normal") demoZeroSettings

end CardioEye
